import Mathlib

/-!
# Verification of the auth-service token-lifecycle core

Shallow embedding of the NestJS auth service (`src/auth/auth.service.ts`,
the session endpoints of the auth controller, and `src/users/users.service.ts`)
together with theorems settling the specification claims.

Modelling conventions:
* Database state (`Db`) is threaded explicitly; Prisma's autoincrement ids are
  modelled with counters in the state.
* Thrown NestJS exceptions become `Except AppError` results; an operation that
  throws before writing returns the state unchanged.
* bcrypt and the JWT codec are external collaborators; they are modelled as
  injective constructors (`BHash`, `Jwt`) so that hashing and signing are
  faithful to their interfaces without modelling the cryptography.
* Wall-clock time and `randomUUID` are passed in as explicit parameters.
-/

namespace AuthService

/-- Result of a bcrypt hash: either the hash of a plaintext password or the
hash of a (serialized) refresh token, as bcrypt is applied to both in the
source. Modelled as an injective constructor: `bcrypt.compare p h` succeeds
exactly when `h` is the hash of `p`. -/
inductive BHash where
  | hpw (plaintext : String)
  | htok (sub : Nat) (email : Option String) (jti : Option String) (iat exp : Nat) (secret : String)
deriving DecidableEq, Repr

/-- `bcrypt.hash(password, 10)` on a plaintext password. -/
def bcryptHashPw (p : String) : BHash := .hpw p

/-- `bcrypt.compare(password, storedHash)`. -/
def bcryptCompare (p : String) (h : BHash) : Bool := h == bcryptHashPw p

/-- JWT claim set as produced by the service: `sub` always, `email` only by
`generateTokens`, `jti` only by `login`/`refreshToken` refresh tokens. -/
structure JwtPayload where
  sub : Nat
  email : Option String := none
  jti : Option String := none
deriving DecidableEq, Repr

/-- A signed token: payload plus the issued-at/expiry claims and the secret it
was signed with. The signature is modelled by carrying the secret: `verify`
succeeds only when presented the same secret. -/
structure Jwt where
  payload : JwtPayload
  iat : Nat
  exp : Nat
  secret : String
deriving DecidableEq, Repr

/-- `bcrypt.hash(refreshTokenString, 10)`. -/
def bcryptHashTok (t : Jwt) : BHash :=
  .htok t.payload.sub t.payload.email t.payload.jti t.iat t.exp t.secret

/-- Failure results. NestJS exception classes thrown by the service/controller
become constructors; a raw collaborator (storage) error is `storage`;
`notFound` (`NotFoundException`) and `emailTaken` (the spec's `EmailTaken`
kind) exist in the taxonomy though the source never throws them; JWT
verification failures are `tokenInvalid`/`tokenExpired`. -/
inductive AppError where
  | unauthorized (msg : String)
  | forbidden (msg : String)
  | notFound (msg : String)
  | emailTaken (msg : String)
  | tokenInvalid
  | tokenExpired
  | storage (msg : String)
deriving DecidableEq, Repr

/-- Value of `configService.get('JWT_SECRET')` (access-token secret). -/
def jwtSecret : String := "JWT_SECRET"

/-- Value of `configService.get('JWT_REFRESH_SECRET')` (refresh-token secret). -/
def jwtRefreshSecret : String := "JWT_REFRESH_SECRET"

/-- `expiresIn: '15m'` in seconds. -/
def accessTokenLifetime : Nat := 15 * 60

/-- `expiresIn: '7d'` in seconds. -/
def refreshTokenLifetime : Nat := 7 * 24 * 60 * 60

/-- `jwtService.sign(payload, { secret, expiresIn })` at wall-clock `now`. -/
def jwtSign (payload : JwtPayload) (secret : String) (expiresIn now : Nat) : Jwt :=
  { payload := payload, iat := now, exp := now + expiresIn, secret := secret }

/-- Modelled from the spec: `jwtService.verify` of the external `@nestjs/jwt`
codec is not under `src/`. Per the spec, verification checks the signature
(kind-appropriate secret) and the expiry against the current time; a token
minted at `T` with lifetime `L` is accepted until exactly `T+L` and rejected
with `TokenExpired` at any later time. -/
def jwtVerify (t : Jwt) (secret : String) (now : Nat) : Except AppError JwtPayload :=
  if t.secret ≠ secret then .error .tokenInvalid
  else if now > t.exp then .error .tokenExpired
  else .ok t.payload

/-- Prisma `User` row. -/
structure User where
  id : Nat
  email : String
  password : BHash
  name : String
  refreshToken : Option BHash := none
deriving DecidableEq, Repr

/-- Prisma `Session` row. -/
structure Session where
  id : Nat
  userId : Nat
  jti : String
  refreshToken : Jwt
  userAgent : String
  ip : String
  createdAt : Nat
  updatedAt : Nat
deriving DecidableEq, Repr

/-- The persistent store backing the Prisma client, with autoincrement
counters for the two tables. -/
structure Db where
  users : List User
  sessions : List Session
  nextUserId : Nat := 1
  nextSessionId : Nat := 1
deriving DecidableEq, Repr

/-- `prisma.user.findUnique({ where: { email } })` (UsersService.findByEmail). -/
def findByEmail (db : Db) (email : String) : Option User :=
  db.users.find? (fun u => u.email == email)

/-- `prisma.user.findUnique({ where: { id } })` (UsersService.findById). -/
def findById (db : Db) (id : Nat) : Option User :=
  db.users.find? (fun u => u.id == id)

/-- `prisma.user.create({ data })` (UsersService.create): fails on the unique
constraint over `email`, otherwise inserts with the next autoincrement id. -/
def usersCreate (db : Db) (email : String) (password : BHash) (name : String) :
    Db × Except AppError User :=
  if db.users.any (fun u => u.email == email) then
    (db, .error (.storage "Unique constraint failed on the fields: (email)"))
  else
    let u : User := { id := db.nextUserId, email := email, password := password,
                      name := name, refreshToken := none }
    ({ db with users := db.users ++ [u], nextUserId := db.nextUserId + 1 }, .ok u)

/-- `prisma.user.update({ where: { id }, data: { refreshToken } })`
(UsersService.updateRefreshToken): fails when no such user exists. -/
def updateRefreshToken (db : Db) (userId : Nat) (rt : Option BHash) :
    Db × Except AppError Unit :=
  if db.users.any (fun u => u.id == userId) then
    let users' := db.users.map
      (fun u => if u.id == userId then { u with refreshToken := rt } else u)
    ({ db with users := users' }, .ok ())
  else
    (db, .error (.storage "Record to update not found"))

/-- Modelled from the spec: the Session Ledger's `findByCorrelationId(jti) →
Session | absent` backs `prisma.session.findFirst({ where: { jti } })`; the
Prisma client is not under `src/`. A lookup keyed by the token's correlation
id returns the live session with that `jti`, or absent (in particular a token
carrying no `jti` resolves to no session). -/
def findSessionByJti (db : Db) (jti : Option String) : Option Session :=
  match jti with
  | none => none
  | some j => db.sessions.find? (fun s => s.jti == j)

/-- The `{ accessToken, refreshToken }` pair returned by `login`,
`generateTokens` and `refreshToken`. -/
structure TokenPair where
  accessToken : Jwt
  refreshToken : Jwt
deriving DecidableEq, Repr

/-- Public user fields returned by `register` and `getProfile`. -/
structure Profile where
  id : Nat
  email : String
  name : String
deriving DecidableEq, Repr

/-- `register`'s result shape. -/
structure RegisterResult where
  access_token : Jwt
  refresh_token : Jwt
  user : Profile
deriving DecidableEq, Repr

/-- AuthService.validateUser: user lookup by email, then bcrypt compare; both
failure branches throw `UnauthorizedException('Credenciales inválidas')`. -/
def validateUser (db : Db) (email password : String) : Except AppError User :=
  match findByEmail db email with
  | none => .error (.unauthorized "Credenciales inválidas")
  | some user =>
    if bcryptCompare password user.password then .ok user
    else .error (.unauthorized "Credenciales inválidas")

/-- AuthService.login: mint refresh (sub+jti, refresh secret, 7d) and access
(sub only, access secret, 15m), then `prisma.session.create`. The fresh `jti`
from `randomUUID()` and the request's user-agent/ip are parameters. -/
def login (db : Db) (user : User) (userAgent ip jti : String) (now : Nat) :
    TokenPair × Db :=
  let refreshToken := jwtSign { sub := user.id, jti := some jti }
      jwtRefreshSecret refreshTokenLifetime now
  let accessToken := jwtSign { sub := user.id } jwtSecret accessTokenLifetime now
  let s : Session := { id := db.nextSessionId, userId := user.id, jti := jti,
                       refreshToken := refreshToken, userAgent := userAgent,
                       ip := ip, createdAt := now, updatedAt := now }
  ({ accessToken := accessToken, refreshToken := refreshToken },
   { db with sessions := db.sessions ++ [s], nextSessionId := db.nextSessionId + 1 })

/-- AuthService.generateTokens: both tokens carry `{ sub, email }` (no `jti`),
signed with the respective secrets at 15m / 7d. -/
def generateTokens (userId : Nat) (email : String) (now : Nat) : TokenPair :=
  { accessToken := jwtSign { sub := userId, email := some email }
      jwtSecret accessTokenLifetime now,
    refreshToken := jwtSign { sub := userId, email := some email }
      jwtRefreshSecret refreshTokenLifetime now }

/-- AuthService.register: hash password, create user, `generateTokens`, store
the bcrypt hash of the refresh token on the User row, return both tokens plus
the public fields. No email-availability check of its own and no Session row:
a duplicate email surfaces as the store's unique-constraint error. -/
def register (db : Db) (email password name : String) (now : Nat) :
    Db × Except AppError RegisterResult :=
  let hashedPassword := bcryptHashPw password
  match usersCreate db email hashedPassword name with
  | (db', .error e) => (db', .error e)
  | (db', .ok newUser) =>
    let tokens := generateTokens newUser.id newUser.email now
    let hashedRefreshToken := bcryptHashTok tokens.refreshToken
    match updateRefreshToken db' newUser.id (some hashedRefreshToken) with
    | (db'', .error e) => (db'', .error e)
    | (db'', .ok _) =>
      (db'', .ok { access_token := tokens.accessToken,
                   refresh_token := tokens.refreshToken,
                   user := { id := newUser.id, email := newUser.email,
                             name := newUser.name } })

/-- AuthService.logout: clears the User row's `refreshToken` field; touches no
Session row. -/
def logout (db : Db) (userId : Nat) : Db × Except AppError String :=
  match updateRefreshToken db userId none with
  | (db', .error e) => (db', .error e)
  | (db', .ok _) => (db', .ok "Sesión cerrada correctamente")

/-- AuthService.getProfile. -/
def getProfile (db : Db) (userId : Nat) : Except AppError Profile :=
  match findById db userId with
  | none => .error (.unauthorized "Usuario no encontrado")
  | some user => .ok { id := user.id, email := user.email, name := user.name }

/-- Body of AuthService.refreshToken's `try` block: verify against the refresh
secret, look up the user by `sub` (throwing when absent), look up the session
by `jti` (throwing when absent), then mint a fresh pair reusing `session.jti`.
No session row is written. `sessionLookupFails` models the session lookup's
storage collaborator raising instead of answering. -/
def refreshTokenTry (db : Db) (token : Jwt) (now : Nat)
    (sessionLookupFails : Bool) : Except AppError TokenPair :=
  match jwtVerify token jwtRefreshSecret now with
  | .error e => .error e
  | .ok payload =>
    match findById db payload.sub with
    | none => .error (.unauthorized "Usuario no encontrado")
    | some user =>
      if sessionLookupFails then .error (.storage "Database connection failed")
      else
        match findSessionByJti db payload.jti with
        | none => .error (.unauthorized "Sesión inválida")
        | some session =>
          .ok { accessToken := jwtSign { sub := user.id } jwtSecret accessTokenLifetime now,
                refreshToken := jwtSign { sub := user.id, jti := some session.jti }
                  jwtRefreshSecret refreshTokenLifetime now }

/-- AuthService.refreshToken: the `try` body wrapped in the catch-all, which
rethrows every failure as `UnauthorizedException('Token inválido')`. The store
is returned unchanged: the source performs no write. -/
def refreshToken (db : Db) (token : Jwt) (now : Nat)
    (sessionLookupFails : Bool) : Db × Except AppError TokenPair :=
  match refreshTokenTry db token now sessionLookupFails with
  | .ok pair => (db, .ok pair)
  | .error _ => (db, .error (.unauthorized "Token inválido"))

/-- AuthController.revokeSession (`DELETE /auth/sessions/:id`): find the row by
id; when it is absent or owned by another user, throw `ForbiddenException`;
only then delete. -/
def revokeSession (db : Db) (sessionId userId : Nat) : Db × Except AppError String :=
  match db.sessions.find? (fun s => s.id == sessionId) with
  | none => (db, .error (.forbidden "No autorizado para eliminar esta sesión"))
  | some session =>
    if session.userId ≠ userId then
      (db, .error (.forbidden "No autorizado para eliminar esta sesión"))
    else
      ({ db with sessions := db.sessions.filter (fun s => s.id ≠ sessionId) },
       .ok "Sesión revocada correctamente")

/-- AuthController.logoutAll (`DELETE /auth/sessions`):
`prisma.session.deleteMany({ where: { userId } })`; always succeeds. -/
def logoutAll (db : Db) (userId : Nat) : Db × String :=
  ({ db with sessions := db.sessions.filter (fun s => s.userId ≠ userId) },
   "Todas las sesiones cerradas")

/-- Discriminator for the `notFound` error kind. -/
def resultIsNotFound {α : Type} (r : Except AppError α) : Bool :=
  match r with
  | .error (.notFound _) => true
  | _ => false

/-- Discriminator for the `storage` (StorageUnavailable) error kind. -/
def resultIsStorage {α : Type} (r : Except AppError α) : Bool :=
  match r with
  | .error (.storage _) => true
  | _ => false

/-- Discriminator for the `emailTaken` error kind. -/
def resultIsEmailTaken {α : Type} (r : Except AppError α) : Bool :=
  match r with
  | .error (.emailTaken _) => true
  | _ => false

/-! ## Concrete fixtures for witnesses and counterexamples -/

/-- A registered user with password `pw1`. -/
def exUser : User :=
  { id := 1, email := "a@x.com", password := bcryptHashPw "pw1", name := "A",
    refreshToken := none }

/-- The refresh token minted for `exUser`'s login session at time 0. -/
def exToken : Jwt :=
  jwtSign { sub := 1, jti := some "j1" } jwtRefreshSecret refreshTokenLifetime 0

/-- The session created by `exUser`'s login at time 0. -/
def exSession : Session :=
  { id := 1, userId := 1, jti := "j1", refreshToken := exToken,
    userAgent := "ua", ip := "ip", createdAt := 0, updatedAt := 0 }

/-- A store with one user and one live session. -/
def exDb : Db :=
  { users := [exUser], sessions := [exSession], nextUserId := 2, nextSessionId := 2 }

/-- A store whose only session's owning user has been deleted. -/
def exDbNoUser : Db :=
  { users := [], sessions := [exSession], nextUserId := 2, nextSessionId := 2 }

/-- A refresh token whose `jti` matches no session of `exDb`. -/
def exTokenStale : Jwt :=
  jwtSign { sub := 1, jti := some "gone" } jwtRefreshSecret refreshTokenLifetime 0

/-! ## Helper lemmas -/

theorem jwtVerify_ok_payload {t : Jwt} {secret : String} {now : Nat}
    {p : JwtPayload} (h : jwtVerify t secret now = .ok p) : p = t.payload := by
  unfold jwtVerify at h
  split at h
  · cases h
  · split at h
    · cases h
    · cases h; rfl

theorem jwtVerify_ok_of (t : Jwt) (secret : String) (now : Nat)
    (hsec : t.secret = secret) (hexp : now ≤ t.exp) :
    jwtVerify t secret now = .ok t.payload := by
  simp [jwtVerify, hsec, Nat.not_lt.mpr hexp]

theorem findById_some {db : Db} {i : Nat} {u : User}
    (h : findById db i = some u) : u.id = i ∧ u ∈ db.users := by
  unfold findById at h
  exact ⟨by simpa using List.find?_some h, List.mem_of_find?_eq_some h⟩

theorem findSessionByJti_some {db : Db} {j : Option String} {s : Session}
    (h : findSessionByJti db j = some s) : s ∈ db.sessions ∧ j = some s.jti := by
  unfold findSessionByJti at h
  match j, h with
  | some jv, h =>
    refine ⟨List.mem_of_find?_eq_some h, ?_⟩
    have := List.find?_some h
    simp_all

theorem map_setRefreshToken_of_no_id (us : List User) (k : Nat)
    (rt : Option BHash) (h : us.any (fun u => u.id == k) = false) :
    us.map (fun u => if u.id = k then { u with refreshToken := rt } else u) = us := by
  induction us with
  | nil => rfl
  | cons u rest ih =>
    simp only [List.any_cons, Bool.or_eq_false_iff] at h
    have h1 : ¬ u.id = k := by simpa using h.1
    simp [h1, ih h.2]

/-! ## Claims -/

/-- C7: a credential check against an email that has no user and one against an
existing email with a wrong password fail with the very same error value
(`UnauthorizedException('Credenciales inválidas')`), so the caller cannot tell
which of email or password was wrong. -/
theorem validateUser_no_user_existence_leak (db : Db) (e₁ p₁ e₂ p₂ : String)
    (u : User) (h₁ : findByEmail db e₁ = none) (h₂ : findByEmail db e₂ = some u)
    (h₃ : bcryptCompare p₂ u.password = false) :
    validateUser db e₁ p₁ = .error (.unauthorized "Credenciales inválidas") ∧
    validateUser db e₂ p₂ = .error (.unauthorized "Credenciales inválidas") ∧
    validateUser db e₁ p₁ = validateUser db e₂ p₂ := by
  simp [validateUser, h₁, h₂, h₃]

/-- Witness for C7: in `exDb`, `b@x.com` has no user and `a@x.com` with
password `wrong` mismatches; both runs return the same error. -/
theorem validateUser_no_user_existence_leak_witness :
    validateUser exDb "b@x.com" "pw1" = .error (.unauthorized "Credenciales inválidas") ∧
    validateUser exDb "a@x.com" "wrong" = .error (.unauthorized "Credenciales inválidas") ∧
    validateUser exDb "b@x.com" "pw1" = validateUser exDb "a@x.com" "wrong" :=
  validateUser_no_user_existence_leak exDb "b@x.com" "pw1" "a@x.com" "wrong"
    exUser (by decide) (by decide) (by decide)

/-- C6: `logoutAll userId` always succeeds (also with zero sessions), removes
exactly the sessions owned by `userId` (their count plus the survivors' count
is the original count), leaves every other user's session in place, and leaves
the user table untouched. -/
theorem logoutAll_deletes_exactly_own_sessions (db : Db) (userId : Nat) :
    (logoutAll db userId).2 = "Todas las sesiones cerradas" ∧
    (logoutAll db userId).1.sessions = db.sessions.filter (fun s => s.userId ≠ userId) ∧
    (logoutAll db userId).1.sessions.length +
      (db.sessions.filter (fun s => s.userId = userId)).length = db.sessions.length ∧
    (logoutAll db userId).1.users = db.users := by
  refine ⟨rfl, rfl, ?_, rfl⟩
  show (db.sessions.filter (fun s => s.userId ≠ userId)).length +
      (db.sessions.filter (fun s => s.userId = userId)).length = db.sessions.length
  induction db.sessions with
  | nil => rfl
  | cons s rest ih =>
    by_cases h : s.userId = userId <;>
      simp [h, List.filter_cons] at ih ⊢ <;> omega

/-- C4 counterexample: with a valid token and a live session, a storage-layer
failure of the session lookup is reported by `refreshToken` as
`Unauthorized('Token inválido')` — an authentication failure — and not as a
storage error kind. -/
theorem refreshToken_storage_failure_counterexample :
    (refreshToken exDb exToken 5 true).2 = .error (.unauthorized "Token inválido") ∧
    resultIsStorage (refreshToken exDb exToken 5 true).2 = false := by
  constructor
  · rfl
  · rfl

/-- C4 amended: whenever the session lookup's storage collaborator fails,
`refreshToken`'s catch-all handler rethrows `Unauthorized('Token inválido')`
for every input, so storage failures are indistinguishable from
authentication failures; no `StorageUnavailable` kind exists. -/
theorem refreshToken_storage_failure_reported_as_unauthorized
    (db : Db) (token : Jwt) (now : Nat) :
    (refreshToken db token now true).2 = .error (.unauthorized "Token inválido") := by
  unfold refreshToken refreshTokenTry
  cases h₁ : jwtVerify token jwtRefreshSecret now with
  | error e => rfl
  | ok payload =>
    cases h₂ : findById db payload.sub with
    | none => simp [h₂]
    | some u => simp [h₂]

/-- C5 counterexample: when no session with the requested id exists,
`revokeSession` fails with `Forbidden` — the same error as an ownership
mismatch — and not with `NotFound`; the store is unchanged. -/
theorem revokeSession_absent_forbidden_counterexample :
    revokeSession exDb 99 1 =
      (exDb, .error (.forbidden "No autorizado para eliminar esta sesión")) ∧
    resultIsNotFound (revokeSession exDb 99 1).2 = false :=
  ⟨rfl, rfl⟩

/-- C5 amended: `revokeSession` fails with `Forbidden` both when the session is
absent and when it is owned by a different user (leaving the store unchanged
in both cases), and deletes the row only when the requester owns it. -/
theorem revokeSession_ownership_check (db : Db) (sid uid : Nat) :
    (db.sessions.find? (fun s => s.id == sid) = none →
      revokeSession db sid uid =
        (db, .error (.forbidden "No autorizado para eliminar esta sesión"))) ∧
    (∀ s, db.sessions.find? (fun s' => s'.id == sid) = some s → s.userId ≠ uid →
      revokeSession db sid uid =
        (db, .error (.forbidden "No autorizado para eliminar esta sesión"))) ∧
    (∀ s, db.sessions.find? (fun s' => s'.id == sid) = some s → s.userId = uid →
      revokeSession db sid uid =
        ({ db with sessions := db.sessions.filter (fun s' => s'.id ≠ sid) },
         .ok "Sesión revocada correctamente")) := by
  refine ⟨fun h => ?_, fun s hs hne => ?_, fun s hs he => ?_⟩
  · simp [revokeSession, h]
  · simp [revokeSession, hs, hne]
  · simp [revokeSession, hs, he]

/-- Witness for C5 amended: user 2 asking to delete user 1's session 1 in
`exDb` is refused with `Forbidden` and the store is unchanged. -/
theorem revokeSession_ownership_check_witness :
    revokeSession exDb 1 2 =
      (exDb, .error (.forbidden "No autorizado para eliminar esta sesión")) :=
  (revokeSession_ownership_check exDb 1 2).2.1 exSession (by decide) (by decide)

/-- Inversion principle: a successful `refreshTokenTry` run pins down every
intermediate step and the returned pair. -/
theorem refreshTokenTry_ok {db : Db} {tok : Jwt} {now : Nat} {fail : Bool}
    {p : TokenPair} (h : refreshTokenTry db tok now fail = .ok p) :
    ∃ user session,
      jwtVerify tok jwtRefreshSecret now = .ok tok.payload ∧
      findById db tok.payload.sub = some user ∧
      fail = false ∧
      findSessionByJti db tok.payload.jti = some session ∧
      p = { accessToken := jwtSign { sub := user.id } jwtSecret accessTokenLifetime now,
            refreshToken := jwtSign { sub := user.id, jti := some session.jti }
              jwtRefreshSecret refreshTokenLifetime now } := by
  unfold refreshTokenTry at h
  split at h
  · exact Except.noConfusion h
  · rename_i payload hverify
    have hpl := jwtVerify_ok_payload hverify
    subst hpl
    split at h
    · exact Except.noConfusion h
    · rename_i user huser
      split at h
      · exact Except.noConfusion h
      · rename_i hfail
        split at h
        · exact Except.noConfusion h
        · rename_i session hsession
          refine ⟨user, session, hverify, huser, by simpa using hfail, hsession, ?_⟩
          injection h with h'
          exact h'.symm

/-- Every failing `refreshToken` call reports
`Unauthorized('Token inválido')`, and no call alters the store. -/
theorem refreshToken_catch_all (db : Db) (tok : Jwt) (now : Nat) (fail : Bool) :
    (refreshToken db tok now fail).1 = db ∧
    ((∃ p, (refreshToken db tok now fail).2 = .ok p) ∨
      (refreshToken db tok now fail).2 =
        .error (.unauthorized "Token inválido")) := by
  unfold refreshToken
  cases htry : refreshTokenTry db tok now fail with
  | error e => exact ⟨rfl, .inr rfl⟩
  | ok p => exact ⟨rfl, .inl ⟨p, rfl⟩⟩

/-- C2: a refresh call can only succeed when the presented token's `jti`
resolves to a live session with that `jti`; when every live session has a
different `jti` (e.g. the token's session was deleted by logout, logout-all or
revoke), refresh fails with `Unauthorized` — regardless of signature validity
and cryptographic expiry. -/
theorem refresh_requires_live_session (db : Db) (tok : Jwt) (now : Nat)
    (j : String) (hjti : tok.payload.jti = some j) :
    (∀ pair, (refreshToken db tok now false).2 = .ok pair →
      ∃ s ∈ db.sessions, s.jti = j) ∧
    ((∀ s ∈ db.sessions, s.jti ≠ j) →
      (refreshToken db tok now false).2 =
        .error (.unauthorized "Token inválido")) := by
  have hsess : ∀ p, refreshTokenTry db tok now false = .ok p →
      ∃ s ∈ db.sessions, s.jti = j := by
    intro p hp
    obtain ⟨user, session, -, -, -, hfound, -⟩ := refreshTokenTry_ok hp
    obtain ⟨hmem, hj⟩ := findSessionByJti_some hfound
    rw [hjti] at hj
    injection hj with hj'
    exact ⟨session, hmem, hj'.symm⟩
  constructor
  · intro pair h
    unfold refreshToken at h
    cases htry : refreshTokenTry db tok now false with
    | error e => rw [htry] at h; cases h
    | ok p => exact hsess p htry
  · intro hno
    unfold refreshToken
    cases htry : refreshTokenTry db tok now false with
    | error e => rfl
    | ok p =>
      obtain ⟨s, hmem, hj⟩ := hsess p htry
      exact absurd hj (hno s hmem)

/-- Witness for C2: the stale token's `jti` (`gone`) matches no session of
`exDb`, so refresh is rejected with `Unauthorized` although the token's
signature is valid and it is far from expiry. -/
theorem refresh_requires_live_session_witness :
    (refreshToken exDb exTokenStale 5 false).2 =
      .error (.unauthorized "Token inválido") :=
  (refresh_requires_live_session exDb exTokenStale 5 "gone" rfl).2 (by decide)

/-- C1 counterexample: a successful refresh mints the new pair reusing the
session's `jti`, but the store it returns is the unchanged input store — the
session row still holds the old refresh token value, not the freshly minted
one, so no in-place rotation of the stored record takes place. -/
theorem refresh_no_store_rotation_counterexample :
    (refreshToken exDb exToken 5 false).1 = exDb ∧
    (refreshToken exDb exToken 5 false).2 =
      .ok { accessToken := jwtSign { sub := 1 } jwtSecret accessTokenLifetime 5,
            refreshToken := jwtSign { sub := 1, jti := some "j1" }
              jwtRefreshSecret refreshTokenLifetime 5 } ∧
    findSessionByJti (refreshToken exDb exToken 5 false).1 (some "j1") =
      some exSession ∧
    exSession.refreshToken ≠
      jwtSign { sub := 1, jti := some "j1" } jwtRefreshSecret
        refreshTokenLifetime 5 :=
  ⟨rfl, rfl, rfl, by decide⟩

/-- C1 amended: a successful refresh mints a new access+refresh pair whose
refresh token reuses the `jti` of the session resolved from the presented
token, but the stored Session record is not updated: the store is returned
exactly as it was. -/
theorem refresh_reuses_jti_without_store_update (db : Db) (tok : Jwt)
    (now : Nat) (fail : Bool) (pair : TokenPair)
    (h : (refreshToken db tok now fail).2 = .ok pair) :
    (refreshToken db tok now fail).1 = db ∧
    ∃ session, findSessionByJti db tok.payload.jti = some session ∧
      session ∈ db.sessions ∧
      pair.refreshToken = jwtSign { sub := tok.payload.sub, jti := some session.jti }
        jwtRefreshSecret refreshTokenLifetime now ∧
      pair.accessToken = jwtSign { sub := tok.payload.sub }
        jwtSecret accessTokenLifetime now := by
  refine ⟨(refreshToken_catch_all db tok now fail).1, ?_⟩
  unfold refreshToken at h
  cases htry : refreshTokenTry db tok now fail with
  | error e => rw [htry] at h; cases h
  | ok p =>
    rw [htry] at h
    injection h with h'
    subst h'
    obtain ⟨user, session, -, huser, -, hfound, hp⟩ := refreshTokenTry_ok htry
    obtain ⟨hid, -⟩ := findById_some huser
    exact ⟨session, hfound, (findSessionByJti_some hfound).1,
      by rw [hp]; simp [hid], by rw [hp]; simp [hid]⟩

/-- Witness for C1 amended: the concrete refresh of `exToken` against `exDb`
leaves the store unchanged and reuses `exSession`'s `jti` in the new pair. -/
theorem refresh_reuses_jti_without_store_update_witness :
    (refreshToken exDb exToken 5 false).1 = exDb ∧
    ∃ session, findSessionByJti exDb exToken.payload.jti = some session ∧
      session ∈ exDb.sessions ∧
      (jwtSign { sub := 1, jti := some "j1" } jwtRefreshSecret
          refreshTokenLifetime 5 : Jwt) =
        jwtSign { sub := exToken.payload.sub, jti := some session.jti }
          jwtRefreshSecret refreshTokenLifetime 5 ∧
      (jwtSign { sub := 1 } jwtSecret accessTokenLifetime 5 : Jwt) =
        jwtSign { sub := exToken.payload.sub } jwtSecret accessTokenLifetime 5 :=
  refresh_reuses_jti_without_store_update exDb exToken 5 false
    { accessToken := jwtSign { sub := 1 } jwtSecret accessTokenLifetime 5,
      refreshToken := jwtSign { sub := 1, jti := some "j1" }
        jwtRefreshSecret refreshTokenLifetime 5 } rfl

/-- An empty store. -/
def exEmptyDb : Db := { users := [], sessions := [] }

/-- C3 counterexample: registering a fresh email in an empty store succeeds,
but creates no Session row (the session table stays empty) and the refresh
token it returns carries no `jti` at all, unlike login's token-issuance step;
and registering an already-taken email (`a@x.com` in `exDb`) does not fail
with an `EmailTaken` kind but with the user store's raw unique-constraint
error. -/
theorem register_no_session_no_jti_counterexample :
    (register exEmptyDb "a@x.com" "pw1" "A" 0).1.sessions = [] ∧
    (register exEmptyDb "a@x.com" "pw1" "A" 0).2 =
      .ok { access_token := jwtSign { sub := 1, email := some "a@x.com" }
              jwtSecret accessTokenLifetime 0,
            refresh_token := jwtSign { sub := 1, email := some "a@x.com" }
              jwtRefreshSecret refreshTokenLifetime 0,
            user := { id := 1, email := "a@x.com", name := "A" } } ∧
    (jwtSign { sub := 1, email := some "a@x.com" } jwtRefreshSecret
        refreshTokenLifetime 0).payload.jti = none ∧
    register exDb "a@x.com" "pw1" "A" 0 =
      (exDb, .error (.storage "Unique constraint failed on the fields: (email)")) ∧
    resultIsEmailTaken (register exDb "a@x.com" "pw1" "A" 0).2 = false :=
  ⟨rfl, rfl, rfl, rfl, rfl⟩

/-- C3 amended: on a fresh email, register hashes the password, creates the
User, and mints an access+refresh pair via `generateTokens` — both tokens
carrying `{sub, email}` and the refresh token carrying no `jti` — then stores
a bcrypt hash of the refresh token on the User row and returns both tokens
plus the public fields. It creates no Session record, and performs no
email-availability check of its own (a duplicate surfaces as the user store's
unique-constraint error, not a distinct EmailTaken failure). -/
theorem register_issues_tokens_without_session (db : Db) (e p n : String)
    (now : Nat) :
    (db.users.any (fun u => u.email == e) = true →
      register db e p n now =
        (db, .error (.storage "Unique constraint failed on the fields: (email)"))) ∧
    (db.users.any (fun u => u.email == e) = false →
      db.users.any (fun u => u.id == db.nextUserId) = false →
      (register db e p n now).1.sessions = db.sessions ∧
      (register db e p n now).2 =
        .ok { access_token := jwtSign { sub := db.nextUserId, email := some e }
                jwtSecret accessTokenLifetime now,
              refresh_token := jwtSign { sub := db.nextUserId, email := some e }
                jwtRefreshSecret refreshTokenLifetime now,
              user := { id := db.nextUserId, email := e, name := n } } ∧
      (register db e p n now).1.users = db.users ++
        [{ id := db.nextUserId, email := e, password := bcryptHashPw p, name := n,
           refreshToken := some (bcryptHashTok (jwtSign
             { sub := db.nextUserId, email := some e }
             jwtRefreshSecret refreshTokenLifetime now)) }]) := by
  refine ⟨fun htaken => by simp [register, usersCreate, htaken],
    fun hfresh hid => ?_⟩
  have hmap := map_setRefreshToken_of_no_id db.users db.nextUserId
    (some (bcryptHashTok (jwtSign { sub := db.nextUserId, email := some e }
      jwtRefreshSecret refreshTokenLifetime now))) hid
  refine ⟨?_, ?_, ?_⟩ <;>
    simp [register, usersCreate, hfresh, updateRefreshToken, generateTokens,
      List.any_append, List.map_append, hmap]

/-- Witness for C3 amended, both branches: registering the taken `a@x.com` in
`exDb` surfaces the unique-constraint storage error, and registering the
fresh `b@x.com` leaves the session table as it was, returns the `jti`-free
pair plus the public fields, and appends the new User row carrying the
hashed password and the bcrypt hash of the refresh token. -/
theorem register_issues_tokens_without_session_witness :
    register exDb "a@x.com" "pw1" "A" 3 =
      (exDb, .error (.storage "Unique constraint failed on the fields: (email)")) ∧
    (register exDb "b@x.com" "pw2" "B" 7).1.sessions = exDb.sessions ∧
    (register exDb "b@x.com" "pw2" "B" 7).2 =
      .ok { access_token := jwtSign { sub := 2, email := some "b@x.com" }
              jwtSecret accessTokenLifetime 7,
            refresh_token := jwtSign { sub := 2, email := some "b@x.com" }
              jwtRefreshSecret refreshTokenLifetime 7,
            user := { id := 2, email := "b@x.com", name := "B" } } ∧
    (register exDb "b@x.com" "pw2" "B" 7).1.users = exDb.users ++
      [{ id := 2, email := "b@x.com", password := bcryptHashPw "pw2", name := "B",
         refreshToken := some (bcryptHashTok (jwtSign
           { sub := 2, email := some "b@x.com" }
           jwtRefreshSecret refreshTokenLifetime 7)) }] :=
  ⟨(register_issues_tokens_without_session exDb "a@x.com" "pw1" "A" 3).1
      (by decide),
   ((register_issues_tokens_without_session exDb "b@x.com" "pw2" "B" 7).2
      (by decide) (by decide)).1,
   ((register_issues_tokens_without_session exDb "b@x.com" "pw2" "B" 7).2
      (by decide) (by decide)).2.1,
   ((register_issues_tokens_without_session exDb "b@x.com" "pw2" "B" 7).2
      (by decide) (by decide)).2.2⟩

/-- C8: the access token minted by login at time `T` verifies successfully at
any time up to exactly `T` + 15 minutes and fails with `TokenExpired` at any
later time; the refresh token verifies up to exactly `T` + 7 days and fails
with `TokenExpired` after. -/
theorem token_lifetimes (db : Db) (u : User) (ua ip j : String) (T t : Nat) :
    (t ≤ T + accessTokenLifetime →
      jwtVerify (login db u ua ip j T).1.accessToken jwtSecret t =
        .ok { sub := u.id }) ∧
    (t > T + accessTokenLifetime →
      jwtVerify (login db u ua ip j T).1.accessToken jwtSecret t =
        .error .tokenExpired) ∧
    (t ≤ T + refreshTokenLifetime →
      jwtVerify (login db u ua ip j T).1.refreshToken jwtRefreshSecret t =
        .ok { sub := u.id, jti := some j }) ∧
    (t > T + refreshTokenLifetime →
      jwtVerify (login db u ua ip j T).1.refreshToken jwtRefreshSecret t =
        .error .tokenExpired) := by
  refine ⟨fun ht => ?_, fun ht => ?_, fun ht => ?_, fun ht => ?_⟩ <;>
    simp [login, jwtVerify, jwtSign, ht, Nat.not_lt.mpr ht]

/-- Witness for C8: for a login at `T = 0`, the access token is accepted at
`t = 900` s and rejected at `t = 901` s; the refresh token is accepted at
`t = 604800` s and rejected at `t = 604801` s. -/
theorem token_lifetimes_witness :
    jwtVerify (login exDb exUser "ua" "ip" "j2" 0).1.accessToken jwtSecret
      accessTokenLifetime = .ok { sub := 1 } ∧
    jwtVerify (login exDb exUser "ua" "ip" "j2" 0).1.accessToken jwtSecret
      (accessTokenLifetime + 1) = .error .tokenExpired ∧
    jwtVerify (login exDb exUser "ua" "ip" "j2" 0).1.refreshToken jwtRefreshSecret
      refreshTokenLifetime = .ok { sub := 1, jti := some "j2" } ∧
    jwtVerify (login exDb exUser "ua" "ip" "j2" 0).1.refreshToken jwtRefreshSecret
      (refreshTokenLifetime + 1) = .error .tokenExpired :=
  ⟨(token_lifetimes exDb exUser "ua" "ip" "j2" 0 accessTokenLifetime).1
      (by decide),
   (token_lifetimes exDb exUser "ua" "ip" "j2" 0 (accessTokenLifetime + 1)).2.1
      (by decide),
   (token_lifetimes exDb exUser "ua" "ip" "j2" 0 refreshTokenLifetime).2.2.1
      (by decide),
   (token_lifetimes exDb exUser "ua" "ip" "j2" 0 (refreshTokenLifetime + 1)).2.2.2
      (by decide)⟩

/-- C9: the legacy `logout` only nulls the User row's stored refresh-token
field — the session table is untouched — and afterwards any live session's
still-valid refresh token is still accepted by `refreshToken`. -/
theorem logout_leaves_sessions_live (db : Db) (uid : Nat) (s : Session)
    (tok : Jwt) (t : Nat)
    (hu : db.users.any (fun u => u.id == uid) = true)
    (hs : s ∈ db.sessions)
    (hjti : tok.payload.jti = some s.jti)
    (hsec : tok.secret = jwtRefreshSecret)
    (hexp : t ≤ tok.exp)
    (hsub : db.users.any (fun u => u.id == tok.payload.sub) = true) :
    (logout db uid).2 = .ok "Sesión cerrada correctamente" ∧
    (logout db uid).1.sessions = db.sessions ∧
    (logout db uid).1.users = db.users.map
      (fun u => if u.id == uid then { u with refreshToken := none } else u) ∧
    ∃ pair, (refreshToken (logout db uid).1 tok t false).2 = .ok pair := by
  have hlogout1 : (logout db uid).1 = { db with users := db.users.map (fun u => if u.id == uid then { u with refreshToken := none } else u) } := by
    simp [logout, updateRefreshToken, hu]
  have hlogout2 : (logout db uid).2 = .ok "Sesión cerrada correctamente" := by
    simp [logout, updateRefreshToken, hu]
  refine ⟨hlogout2, by rw [hlogout1], by rw [hlogout1], ?_⟩
  -- the user lookup still succeeds after the map: ids are preserved
  have hfind0 : (db.users.find? (fun u => u.id == tok.payload.sub)).isSome := by
    rw [List.find?_isSome]
    simpa [List.any_eq_true] using hsub
  obtain ⟨u0, hu0⟩ := Option.isSome_iff_exists.mp hfind0
  have hfind : findById (logout db uid).1 tok.payload.sub =
      some (if u0.id == uid then { u0 with refreshToken := none } else u0) := by
    rw [hlogout1]
    unfold findById
    rw [List.find?_map]
    have : ((fun u : User => u.id == tok.payload.sub) ∘
        (fun u => if u.id == uid then { u with refreshToken := none } else u)) =
        (fun u : User => u.id == tok.payload.sub) := by
      funext u
      by_cases h : u.id = uid <;> simp [h]
    rw [this, hu0]
    rfl
  -- the session lookup still succeeds: sessions are untouched
  have hsfind0 : (db.sessions.find? (fun x => x.jti == s.jti)).isSome := by
    rw [List.find?_isSome]
    exact ⟨s, hs, by simp⟩
  obtain ⟨s0, hs0⟩ := Option.isSome_iff_exists.mp hsfind0
  have hsfind : findSessionByJti (logout db uid).1 tok.payload.jti = some s0 := by
    rw [hlogout1, hjti]
    unfold findSessionByJti
    exact hs0
  have hv : jwtVerify tok jwtRefreshSecret t = .ok tok.payload :=
    jwtVerify_ok_of tok jwtRefreshSecret t hsec hexp
  obtain ⟨hid, -⟩ := findById_some hfind
  refine ⟨{ accessToken := jwtSign { sub := tok.payload.sub }
              jwtSecret accessTokenLifetime t,
            refreshToken := jwtSign { sub := tok.payload.sub, jti := some s0.jti }
              jwtRefreshSecret refreshTokenLifetime t }, ?_⟩
  simp only [refreshToken, refreshTokenTry, hv, hfind, hsfind]
  rw [hid]
  simp

/-- Witness for C9: after `logout exDb 1`, the session table still holds
`exSession` and refreshing with `exToken` succeeds. -/
theorem logout_leaves_sessions_live_witness :
    (logout exDb 1).2 = .ok "Sesión cerrada correctamente" ∧
    (logout exDb 1).1.sessions = exDb.sessions ∧
    (logout exDb 1).1.users = exDb.users.map
      (fun u => if u.id == 1 then { u with refreshToken := none } else u) ∧
    ∃ pair, (refreshToken (logout exDb 1).1 exToken 5 false).2 = .ok pair :=
  logout_leaves_sessions_live exDb 1 exSession exToken 5 (by decide)
    (by decide) rfl rfl (by decide) (by decide)

/-- C10: a refresh call with a validly-signed, unexpired token whose session
is still live is still rejected with `Unauthorized` when the user identified
by the token's `sub` no longer exists. -/
theorem refresh_requires_user_exists (db : Db) (tok : Jwt) (t : Nat)
    (hsec : tok.secret = jwtRefreshSecret) (hexp : t ≤ tok.exp)
    (_hs : ∃ s ∈ db.sessions, tok.payload.jti = some s.jti)
    (hu : findById db tok.payload.sub = none) :
    (refreshToken db tok t false).2 =
      .error (.unauthorized "Token inválido") := by
  have hv : jwtVerify tok jwtRefreshSecret t = .ok tok.payload :=
    jwtVerify_ok_of tok jwtRefreshSecret t hsec hexp
  simp [refreshToken, refreshTokenTry, hv, hu]

/-- Witness for C10: in `exDbNoUser` the session is live and `exToken` is
valid and unexpired, yet refresh fails because user 1 was deleted. -/
theorem refresh_requires_user_exists_witness :
    (refreshToken exDbNoUser exToken 5 false).2 =
      .error (.unauthorized "Token inválido") :=
  refresh_requires_user_exists exDbNoUser exToken 5 rfl (by decide)
    ⟨exSession, by decide, rfl⟩ rfl

end AuthService
